import Mathlib

/- Verification of the update-check core of github_updater.py: remote identity,
   comparison-response parsing, scheduled and on-demand update checks, error
   capture, and the run-once startup handler.  Times are modelled as integer
   seconds, parsed JSON payloads as inductive data, raised Python exceptions as
   Except.error or Option.none, and the module-global context GHUC as an
   explicitly passed state value. -/

namespace GithubUpdater

/-- Immutable (owner, repo, branch) triple; source class Remote. -/
structure Remote where
  owner : String
  repo : String
  branch : String
deriving DecidableEq

/-- Source class Version: the locally installed remote plus optional commit sha. -/
structure Version where
  remote : Remote
  commit : Option String
deriving DecidableEq

/-- Source class RemoteCompareInfo. -/
structure RemoteCompareInfo where
  ahead_by : Int
  behind_by : Int
  ahead_by_commits : List String
deriving DecidableEq

/-- Lookup in an insertion-ordered association list, modelling a Python dict read. -/
def assocGet {α β : Type} [DecidableEq α] : List (α × β) → α → Option β
  | [], _ => none
  | p :: rest, k => if p.1 = k then some p.2 else assocGet rest k

/-- Write to an insertion-ordered association list, modelling a Python dict item
assignment: overwrite in place when the key exists, append otherwise. -/
def assocSet {α β : Type} [DecidableEq α] : List (α × β) → α → β → List (α × β)
  | [], k, v => [(k, v)]
  | p :: rest, k, v => if p.1 = k then (k, v) :: rest else p :: assocSet rest k v

/-- The mutable fields of the module-global GitHubUpdaterContext GHUC that the
checked operations touch: the error log and the per-remote compare registry. -/
structure GHUCState where
  errors : List (String × String)
  remote_compare_infos : List (Remote × RemoteCompareInfo)
deriving DecidableEq

/-- One element of the "commits" list of a 200 compare response.  The source
reads commit["commit"]["message"] and commit["sha"]; the nesting is flattened
here into the two string fields actually read. -/
structure CommitEntry where
  sha : String
  message : String
deriving DecidableEq

/-- The parsed JSON body of a 200 compare response, with the fields the source
reads: ahead_by, behind_by, total_commits, commits. -/
structure CompareData where
  ahead_by : Int
  behind_by : Int
  total_commits : Int
  commits : List CommitEntry
deriving DecidableEq

/-- True for the characters Python str.splitlines treats as line boundaries. -/
def pythonLineBoundary (c : Char) : Bool :=
  c == '\n' || c == '\r' || c == '\x0b' || c == '\x0c' ||
  c == '\x1c' || c == '\x1d' || c == '\x1e' || c == '\x85' ||
  c == '\u2028' || c == '\u2029'

/-- The prefix of a character list before the first line boundary. -/
def firstLineChars : List Char → List Char
  | [] => []
  | c :: cs => if pythonLineBoundary c then [] else c :: firstLineChars cs

/-- Python message.splitlines()[0]: none models the IndexError raised when the
message is empty (splitlines of an empty string is an empty list); otherwise the
first element of splitlines is the prefix before the first line boundary. -/
def firstLine (s : String) : Option String :=
  if s = "" then none
  else some (String.mk (firstLineChars s.data))

/-- The loop of process_api_compare_data_result, lines 305-312: first line of
each commit message in order; none models the exception raised at the first
commit whose message has no first line. -/
def extractFirstLines : List CommitEntry → Option (List String)
  | [] => some []
  | e :: rest =>
    match firstLine e.message with
    | none => none
    | some l =>
      match extractFirstLines rest with
      | none => none
      | some ls => some (l :: ls)

/-- Source function process_api_compare_data_result (lines 291-322) as a state
transformer on GHUC: none models a raised exception (empty commit message, or
the commits[-1] access in the logging call when commits is empty), some returns
the state with the registry entry for the remote replaced.  The isinstance
asserts of the source are vacuous in this typed embedding. -/
def process_api_compare_data_result (remote : Remote) (data : CompareData)
    (st : GHUCState) : Option GHUCState :=
  match extractFirstLines data.commits with
  | none => none
  | some firsts =>
    if (data.commits.length : Int) = data.total_commits then
      match data.commits with
      | [] => none
      | _ :: _ =>
        let info : RemoteCompareInfo := ⟨data.ahead_by, data.behind_by, firsts⟩
        some { st with remote_compare_infos := assocSet st.remote_compare_infos remote info }
    else
      let omitted : Int := data.total_commits - (data.commits.length : Int)
      let info : RemoteCompareInfo :=
        ⟨data.ahead_by, data.behind_by,
          firsts ++ ["... " ++ toString omitted ++ " more omitted"]⟩
      some { st with remote_compare_infos := assocSet st.remote_compare_infos remote info }

/-- The parsed JSON body of an HTTP response as check_updates sees it after
json.load: a body of the compare shape (with the str() rendering of the parsed
dict, used only in the 404 error message), some other successfully parsed JSON
value (again with its str() rendering), or a body on which json.load raises. -/
inductive Body where
  | compare (data : CompareData) (reprStr : String)
  | other (reprStr : String)
  | malformed
deriving DecidableEq

/-- The str() rendering of a parsed body, as interpolated into the 404 error. -/
def bodyRepr : Body → String
  | .compare _ r => r
  | .other r => r
  | .malformed => ""

/-- The outcome of the urlopen call in check_updates: a response with a status
and body (an HTTPError carrying a body is the same case, since the source
handles both branches identically), or a failure such as URLError that is not
an HTTPError and therefore propagates out of the try statement. -/
inductive HttpResponse where
  | response (status : Nat) (body : Body)
  | transportError
deriving DecidableEq

/-- Source function check_updates (lines 325-354).  Except.error st models an
exception propagating out (assert failure on a status other than 200 and 404,
a json.load failure, a transport failure, or a raise inside
process_api_compare_data_result), leaving the state as it was.  Except.ok
returns the bool result of the source together with the new state: on 404 the
error log gains the "Commit not found" entry and the function returns False;
on 200 the registry is updated and the function returns True. -/
def check_updates (remote : Remote) (commit : String) (http : HttpResponse)
    (st : GHUCState) : Except GHUCState (Bool × GHUCState) :=
  match http with
  | .transportError => .error st
  | .response status body =>
    if status = 200 ∨ status = 404 then
      match body with
      | .malformed => .error st
      | b =>
        if status = 404 then
          let msg : String := commit ++ "\n\n" ++ bodyRepr b
          .ok (false, { st with errors := assocSet st.errors "Commit not found" msg })
        else
          match b with
          | .compare data _ =>
            match process_api_compare_data_result remote data st with
            | none => .error st
            | some st2 => .ok (true, st2)
          | _ => .error st
    else .error st

/-- CheckUpdatesOperator.execute (lines 282-288): calls check_updates with the
remote held in the operator properties and the current version commit, with no
exception handling of its own, and discards the bool result. -/
def CheckUpdatesOperator_execute (remote : Remote) (version_commit : String)
    (http : HttpResponse) (st : GHUCState) : Except GHUCState GHUCState :=
  match check_updates remote version_commit http st with
  | .error s => .error s
  | .ok (_, s) => .ok s

/-- The AddonPreferences fields read by the scheduled check.  The persisted
isoformat string and its parse are abstracted to an Option Int timestamp in
seconds (the malformed-isoformat recovery path is not modelled here). -/
structure Prefs where
  auto_check_updates : Bool
  last_update_check_datetime : Option Int
  update_check_period_days : Int
  update_check_period_hours : Int
deriving DecidableEq

/-- AddonPreferences.update_check_period_timedelta as a number of seconds. -/
def update_check_period_timedelta (p : Prefs) : Int :=
  p.update_check_period_days * 86400 + p.update_check_period_hours * 3600

/-- The due test of handler_load_post_impl, lines 374-377: the check runs when
no last-check time is recorded, or when last + period < now. -/
def scheduledCheckDue (last : Option Int) (period : Int) (now : Int) : Bool :=
  match last with
  | none => true
  | some t => decide (t + period < now)

/-- Modelled from the spec: the spec sentence says a check is due when
last_checked is absent or now - last_checked >= period.  Stated here only to be
compared with scheduledCheckDue, the due test of the code. -/
def specScheduledCheckDue (last : Option Int) (period : Int) (now : Int) : Bool :=
  match last with
  | none => true
  | some t => decide (now - t ≥ period)

/-- The preference store plus GHUC state threaded through the scheduled check. -/
structure SessionState where
  prefs : Prefs
  ghuc : GHUCState
deriving DecidableEq

/-- Source function handler_load_post_impl (lines 357-382), for the case where
the addon preferences object exists and is well typed.  When auto checking is
on, a version with a commit is known and the due test passes, check_updates
runs; only a True result advances last_update_check_datetime to now.
Except.error models an exception propagating out of the function. -/
def handler_load_post_impl (version : Option Version) (now : Int)
    (http : HttpResponse) (s : SessionState) : Except SessionState SessionState :=
  match version with
  | none => .ok s
  | some v =>
    match v.commit with
    | none => .ok s
    | some commit =>
      if s.prefs.auto_check_updates
          && scheduledCheckDue s.prefs.last_update_check_datetime
               (update_check_period_timedelta s.prefs) now then
        match check_updates v.remote commit http s.ghuc with
        | .error g => .error { s with ghuc := g }
        | .ok (true, g) =>
          .ok { prefs := { s.prefs with last_update_check_datetime := some now },
                ghuc := g }
        | .ok (false, g) => .ok { s with ghuc := g }
      else .ok s

/-- Stands in for the traceback.format_exc() text stored in the error log when
the startup handler body raises; the exact text is environment dependent. -/
def tracebackText : String := "Traceback (most recent call last): ..."

/-- Session state plus whether handler_load_post is still registered in
bpy.app.handlers.load_post. -/
structure HandlerState where
  session : SessionState
  load_post_registered : Bool
deriving DecidableEq

/-- Source function handler_load_post (lines 385-395): runs the impl inside
try/except/finally; on an exception it stores the traceback in the error log
and re-raises (Except.error); the finally clause removes the handler from
load_post in both cases. -/
def handler_load_post (version : Option Version) (now : Int)
    (http : HttpResponse) (hs : HandlerState) : Except HandlerState HandlerState :=
  match handler_load_post_impl version now http hs.session with
  | .ok s => .ok { session := s, load_post_registered := false }
  | .error s =>
    let errors2 := assocSet s.ghuc.errors "handler_load_post_impl" tracebackText
    let s2 : SessionState := { s with ghuc := { s.ghuc with errors := errors2 } }
    .error { session := s2, load_post_registered := false }

/-- The state carried by an Except result, whether returned or raised. -/
def exceptSession : Except SessionState SessionState → SessionState
  | .error s => s
  | .ok s => s

/-- True exactly when a check_updates result is a normal return of True. -/
def checkSucceeded : Except GHUCState (Bool × GHUCState) → Bool
  | .ok (true, _) => true
  | _ => false

/-- The fields of a CustomRemotePropertyGroup instance. -/
structure CustomRemote where
  owner : String
  repo : String
  branch : String
deriving DecidableEq

/-- CustomRemotePropertyGroup.is_set, line 93-94: the Python expression
owner or repo or branch, used in boolean context; a string is truthy exactly
when it is non-empty. -/
def CustomRemotePropertyGroup.is_set (g : CustomRemote) : Bool :=
  !g.owner.isEmpty || !g.repo.isEmpty || !g.branch.isEmpty

/-- CustomRemotePropertyGroup.github_tree_url_get, lines 96-100. -/
def CustomRemotePropertyGroup.github_tree_url_get (g : CustomRemote) : String :=
  if CustomRemotePropertyGroup.is_set g then
    "https://github.com/" ++ g.owner ++ "/" ++ g.repo ++ "/tree/" ++ g.branch
  else ""

/-- CustomRemotePropertyGroup.github_tree_url_set, lines 102-109: the body
calls re.fullmatch with only the pattern and no string to match against, so
every invocation raises TypeError before any field assignment; none models
that unconditional exception. -/
def CustomRemotePropertyGroup.github_tree_url_set (g : CustomRemote)
    (url : String) : Option CustomRemote :=
  none

/-- A sample remote used by concrete instances. -/
def sampleRemote : Remote := ⟨"Dragorn421", "blender-addon-updater-github", "main"⟩

end GithubUpdater

namespace GithubUpdater

theorem string_isEmpty_false_iff (s : String) : s.isEmpty = false ↔ s ≠ "" := by
  rw [Bool.eq_false_iff]
  exact not_congr (String.isEmpty_iff s)

theorem assocGet_assocSet_self {α β : Type} [DecidableEq α]
    (m : List (α × β)) (k : α) (v : β) :
    assocGet (assocSet m k v) k = some v := by
  induction m with
  | nil => simp [assocGet, assocSet]
  | cons p rest ih =>
    by_cases h : p.1 = k
    · simp [assocGet, assocSet, h]
    · simp [assocGet, assocSet, h, ih]

/-- Claim C1, counterexample: with now = 1000, period = 100 and
last_checked = 900 = now - period, the claimed due predicate (absent or
now - last >= period) holds, but the due test of the code does not fire:
the boundary of the code is exclusive, not inclusive. -/
theorem C1_counterexample :
    specScheduledCheckDue (some 900) 100 1000 = true ∧
    scheduledCheckDue (some 900) 100 1000 = false := by
  decide

/-- Claim C1 (amended): the due test of the scheduled check fires when
last_checked is absent or now - last_checked is strictly greater than the
period; in particular with last_checked = now - period exactly the check is
not due, and with last_checked = now - period + 1 second it is not due. -/
theorem C1_amended (last : Option Int) (period now : Int) :
    (scheduledCheckDue last period now = true
      ↔ (last = none ∨ ∃ t, last = some t ∧ now - t > period)) ∧
    scheduledCheckDue (some (now - period)) period now = false ∧
    scheduledCheckDue (some (now - period + 1)) period now = false := by
  refine ⟨?_, ?_, ?_⟩
  · cases last with
    | none => simp [scheduledCheckDue]
    | some t =>
      simp only [scheduledCheckDue, decide_eq_true_eq]
      constructor
      · intro h
        refine Or.inr ⟨t, rfl, ?_⟩
        omega
      · rintro (h | ⟨t2, ht2, hgt⟩)
        · exact Option.noConfusion h
        · injection ht2 with ht2
          subst ht2
          omega
  · simp only [scheduledCheckDue, decide_eq_false_iff_not]
    omega
  · simp only [scheduledCheckDue, decide_eq_false_iff_not]
    omega

/-- Claim C3: parsing the 200 compare response with ahead_by 3, behind_by 0,
total_commits 3 and commit messages "C\nbody", "B", "A" (in that order)
records the outcome with ahead_by 3, behind_by 0 and first lines
["C", "B", "A"] in the order received. -/
theorem C3_theorem :
    process_api_compare_data_result sampleRemote
      ⟨3, 0, 3, [⟨"s1", "C\nbody"⟩, ⟨"s2", "B"⟩, ⟨"s3", "A"⟩]⟩ ⟨[], []⟩
      = some ⟨[], [(sampleRemote, ⟨3, 0, ["C", "B", "A"]⟩)]⟩ := by
  rfl

/-- Claim C7: evaluating the code at the failing input.  For the identity
(a, b, c) the tree-URL getter produces the expected URL, but feeding that
string to the tree-URL setter raises TypeError (modelled as none), because the
source calls re.fullmatch with no string argument to match against; no
round-trip is possible. -/
theorem C7_theorem :
    CustomRemotePropertyGroup.github_tree_url_get ⟨"a", "b", "c"⟩
      = "https://github.com/a/b/tree/c" ∧
    CustomRemotePropertyGroup.github_tree_url_set ⟨"a", "b", "c"⟩
      (CustomRemotePropertyGroup.github_tree_url_get ⟨"a", "b", "c"⟩) = none := by
  exact ⟨rfl, rfl⟩

/-- Claim C8, counterexample: the identity with owner "a" and empty repo and
branch has some but not all fields non-empty, yet is_set returns true, against
the claim that is_set holds exactly when all three fields are non-empty. -/
theorem C8_counterexample :
    CustomRemotePropertyGroup.is_set ⟨"a", "", ""⟩ = true ∧
    (CustomRemote.mk "a" "" "").repo = "" := by
  exact ⟨rfl, rfl⟩

/-- Claim C8 (amended): is_set is true exactly when at least one of the three
fields is non-empty (Python or over string truthiness); it is false for the
all-empty identity, and an identity with some but not all fields empty does
count as set. -/
theorem C8_amended (g : CustomRemote) :
    CustomRemotePropertyGroup.is_set g = true
      ↔ (g.owner ≠ "" ∨ g.repo ≠ "" ∨ g.branch ≠ "") := by
  simp only [CustomRemotePropertyGroup.is_set, Bool.or_eq_true, Bool.not_eq_true',
    string_isEmpty_false_iff]
  tauto

end GithubUpdater

namespace GithubUpdater

theorem extractFirstLines_none_of_mem (l : List CommitEntry) (e : CommitEntry)
    (he : e ∈ l) (hm : e.message = "") : extractFirstLines l = none := by
  induction l with
  | nil => cases he
  | cons a rest ih =>
    rcases List.mem_cons.mp he with h | h
    · subst h
      simp [extractFirstLines, firstLine, hm]
    · cases hf : firstLine a.message with
      | none => simp [extractFirstLines, hf]
      | some l2 => simp [extractFirstLines, hf, ih h]

/-- Claim C4: when the returned commit entries are fewer than total_commits,
parsing records an outcome whose commit list is the extracted first lines
followed by exactly one synthetic trailing entry
"... <omitted-count> more omitted", where omitted-count is total_commits minus
the number of returned entries. -/
theorem C4_theorem (remote : Remote) (data : CompareData) (st : GHUCState)
    (firsts : List String)
    (hf : extractFirstLines data.commits = some firsts)
    (hlt : (data.commits.length : Int) < data.total_commits) :
    ∃ st2, process_api_compare_data_result remote data st = some st2 ∧
      st2.errors = st.errors ∧
      st2.remote_compare_infos =
        assocSet st.remote_compare_infos remote
          ⟨data.ahead_by, data.behind_by,
            firsts ++ ["... "
              ++ toString (data.total_commits - (data.commits.length : Int))
              ++ " more omitted"]⟩ := by
  have hne : ¬ ((data.commits.length : Int) = data.total_commits) := by omega
  simp only [process_api_compare_data_result, hf, if_neg hne]
  exact ⟨_, rfl, rfl, rfl⟩

set_option maxRecDepth 10000 in
/-- Claim C4, witness at the concrete input of the claim: total_commits 300
with 250 returned entries appends "... 50 more omitted" as the last element. -/
theorem C4_witness :
    ∃ st2,
      process_api_compare_data_result sampleRemote
        ⟨300, 0, 300, List.replicate 250 ⟨"s", "m"⟩⟩ ⟨[], []⟩ = some st2 ∧
      st2.errors = ([] : List (String × String)) ∧
      st2.remote_compare_infos =
        assocSet ([] : List (Remote × RemoteCompareInfo)) sampleRemote
          ⟨300, 0, List.replicate 250 "m" ++ ["... 50 more omitted"]⟩ :=
  C4_theorem sampleRemote ⟨300, 0, 300, List.replicate 250 ⟨"s", "m"⟩⟩ ⟨[], []⟩
    (List.replicate 250 "m") (by decide) (by decide)

/-- Claim C5: a 404 comparison response records the not-found error under the
key "Commit not found" with the commit and the rendering of the response body,
returns False, and leaves the update registry untouched, so a prior recorded
outcome for the remote is still the value returned for it. -/
theorem C5_theorem (remote : Remote) (commit : String) (reprStr : String)
    (st : GHUCState) (prior : RemoteCompareInfo)
    (hprior : assocGet st.remote_compare_infos remote = some prior) :
    ∃ st2,
      check_updates remote commit (HttpResponse.response 404 (Body.other reprStr)) st
        = Except.ok (false, st2) ∧
      st2.remote_compare_infos = st.remote_compare_infos ∧
      assocGet st2.remote_compare_infos remote = some prior ∧
      assocGet st2.errors "Commit not found" = some (commit ++ "\n\n" ++ reprStr) := by
  refine ⟨⟨assocSet st.errors "Commit not found" (commit ++ "\n\n" ++ reprStr),
    st.remote_compare_infos⟩, ?_, rfl, hprior, ?_⟩
  · rfl
  · exact assocGet_assocSet_self st.errors "Commit not found" (commit ++ "\n\n" ++ reprStr)

/-- Claim C5, witness: a 404 for commit "deadbeef" with a prior outcome
recorded for the remote leaves that outcome in place and logs the error. -/
theorem C5_witness :
    ∃ st2,
      check_updates sampleRemote "deadbeef"
        (HttpResponse.response 404 (Body.other "message: Not Found"))
        ⟨[], [(sampleRemote, ⟨1, 0, ["x"]⟩)]⟩
        = Except.ok (false, st2) ∧
      st2.remote_compare_infos
        = GHUCState.remote_compare_infos ⟨[], [(sampleRemote, ⟨1, 0, ["x"]⟩)]⟩ ∧
      assocGet st2.remote_compare_infos sampleRemote = some ⟨1, 0, ["x"]⟩ ∧
      assocGet st2.errors "Commit not found"
        = some ("deadbeef" ++ "\n\n" ++ "message: Not Found") :=
  C5_theorem sampleRemote "deadbeef" "message: Not Found"
    ⟨[], [(sampleRemote, ⟨1, 0, ["x"]⟩)]⟩ ⟨1, 0, ["x"]⟩ (by rfl)

/-- Claim C10: parsing a 200 compare response is only defined when every commit
message is non-empty: if some entry has the empty string as its message, first
line extraction raises and no outcome is recorded (the parse returns none). -/
theorem C10_theorem (remote : Remote) (data : CompareData) (st : GHUCState)
    (e : CommitEntry) (he : e ∈ data.commits) (hm : e.message = "") :
    process_api_compare_data_result remote data st = none := by
  unfold process_api_compare_data_result
  rw [extractFirstLines_none_of_mem data.commits e he hm]

/-- Claim C10, witness: a response whose single commit has an empty message
makes the parse raise instead of recording an outcome. -/
theorem C10_witness :
    process_api_compare_data_result sampleRemote ⟨1, 0, 1, [⟨"s", ""⟩]⟩ ⟨[], []⟩ = none :=
  C10_theorem sampleRemote ⟨1, 0, 1, [⟨"s", ""⟩]⟩ ⟨[], []⟩ ⟨"s", ""⟩
    (List.mem_singleton.mpr rfl) rfl

end GithubUpdater

namespace GithubUpdater

/-- Claim C2: in the scheduled check, last_update_check_datetime is advanced
exactly when check_updates returns True: on a successful check it is set to
now, and on a failing check (404 giving False, or a raised error) it is left
untouched so the next opportunity retries. -/
theorem C2_theorem (v : Version) (commit : String) (now : Int)
    (http : HttpResponse) (s : SessionState)
    (hc : v.commit = some commit)
    (hauto : s.prefs.auto_check_updates = true)
    (hdue : scheduledCheckDue s.prefs.last_update_check_datetime
      (update_check_period_timedelta s.prefs) now = true) :
    (exceptSession (handler_load_post_impl (some v) now http s)).prefs.last_update_check_datetime
      = if checkSucceeded (check_updates v.remote commit http s.ghuc) = true
        then some now else s.prefs.last_update_check_datetime := by
  cases hres : check_updates v.remote commit http s.ghuc with
  | error g =>
    simp [handler_load_post_impl, hc, hauto, hdue, hres, exceptSession, checkSucceeded]
  | ok p =>
    obtain ⟨b, g⟩ := p
    cases b <;>
      simp [handler_load_post_impl, hc, hauto, hdue, hres, exceptSession, checkSucceeded]

/-- Claim C2, witness: with auto checking on, no recorded last check and a due
404 response, the failing check leaves the timestamp absent. -/
theorem C2_witness :
    (exceptSession (handler_load_post_impl
        (some ⟨sampleRemote, some "abc"⟩) 5
        (HttpResponse.response 404 (Body.other "nf"))
        ⟨⟨true, none, 0, 0⟩, ⟨[], []⟩⟩)).prefs.last_update_check_datetime = none :=
  C2_theorem ⟨sampleRemote, some "abc"⟩ "abc" 5
    (HttpResponse.response 404 (Body.other "nf"))
    ⟨⟨true, none, 0, 0⟩, ⟨[], []⟩⟩ rfl rfl rfl

/-- Claim C6, counterexample: an HTTP 500 response on the user triggered
on-demand path makes CheckUpdatesOperator.execute raise (the status assert in
check_updates fails and nothing on that path catches it), with the error log
left empty, instead of returning a logged unexpected-error result. -/
theorem C6_counterexample :
    CheckUpdatesOperator_execute sampleRemote "c"
      (HttpResponse.response 500 (Body.other "x")) ⟨[], []⟩
      = Except.error ⟨[], []⟩ := by
  rfl

/-- Claim C6 (amended): for every HTTP status other than 200 and 404, and for
transport and json parse failures, check_updates raises out of the triggering
operation with the context state unchanged (so nothing is added to the error
log there) instead of returning an unexpected-error result, and on the
user-triggered on-demand path the exception propagates out of execute
uncaught; only the scheduled path wraps the call, logging and re-raising. -/
theorem C6_amended (remote : Remote) (commit : String) (status : Nat)
    (body : Body) (st : GHUCState)
    (h200 : status ≠ 200) (h404 : status ≠ 404) :
    check_updates remote commit (HttpResponse.response status body) st
      = Except.error st ∧
    CheckUpdatesOperator_execute remote commit (HttpResponse.response status body) st
      = Except.error st ∧
    check_updates remote commit HttpResponse.transportError st = Except.error st ∧
    check_updates remote commit (HttpResponse.response 200 Body.malformed) st
      = Except.error st ∧
    check_updates remote commit (HttpResponse.response 404 Body.malformed) st
      = Except.error st := by
  have hcond : ¬ (status = 200 ∨ status = 404) := by
    intro h
    cases h with
    | inl h => exact h200 h
    | inr h => exact h404 h
  refine ⟨?_, ?_, rfl, rfl, rfl⟩
  · simp [check_updates, hcond]
  · simp [CheckUpdatesOperator_execute, check_updates, hcond]

/-- Claim C6, witness at status 500: the check and the on-demand operator both
raise with the state unchanged; transport and parse failures raise too. -/
theorem C6_witness :
    check_updates sampleRemote "c" (HttpResponse.response 500 (Body.other "x")) ⟨[], []⟩
      = Except.error ⟨[], []⟩ ∧
    CheckUpdatesOperator_execute sampleRemote "c"
      (HttpResponse.response 500 (Body.other "x")) ⟨[], []⟩ = Except.error ⟨[], []⟩ ∧
    check_updates sampleRemote "c" HttpResponse.transportError ⟨[], []⟩
      = Except.error ⟨[], []⟩ ∧
    check_updates sampleRemote "c" (HttpResponse.response 200 Body.malformed) ⟨[], []⟩
      = Except.error ⟨[], []⟩ ∧
    check_updates sampleRemote "c" (HttpResponse.response 404 Body.malformed) ⟨[], []⟩
      = Except.error ⟨[], []⟩ :=
  C6_amended sampleRemote "c" 500 (Body.other "x") ⟨[], []⟩ (by decide) (by decide)

/-- Claim C9: the startup hook deregisters itself from load_post after its
single execution attempt whether the body returns or raises, and when the body
raises it records the failure in the error log under the key
"handler_load_post_impl" before re-raising. -/
theorem C9_theorem (version : Option Version) (now : Int)
    (http : HttpResponse) (hs : HandlerState) :
    match handler_load_post version now http hs with
    | .ok hs2 => hs2.load_post_registered = false
    | .error hs2 =>
        hs2.load_post_registered = false ∧
        (assocGet hs2.session.ghuc.errors "handler_load_post_impl").isSome = true := by
  cases h : handler_load_post_impl version now http hs.session with
  | ok s => simp [handler_load_post, h]
  | error s => simp [handler_load_post, h, assocGet_assocSet_self]

end GithubUpdater
